import Mathlib

/-!
Verification of the invoice-extraction pipeline in `app.py`.

The file embeds, as executable Lean definitions, the part of the program that
runs once a file is uploaded (lines 33-121 of `app.py`): the temporary-file
bookkeeping, the upload and inference calls (as oracles, since they are
external services), `json.loads`, the five `data.get` display lookups, the
`products` branch with `pd.DataFrame`, the two-sheet Excel export with its
metadata row, the download file name, the catch-all `except` and the
`finally` cleanup.  Theorems about these definitions then settle the spec
claims.
-/

set_option autoImplicit false

namespace Anant

/-- JSON values as produced by Python's `json.loads`: `None`, `bool`, `int`,
`float` (modelled in decimal as `m * 10 ^ e`, which is exact for every literal
the parser accepts), `str`, `list`, `dict` (association list; the parser keeps
keys unique, first position and last value winning, as Python dicts do). -/
inductive Json where
  | null : Json
  | bool (b : Bool) : Json
  | intNum (n : Int) : Json
  | floatNum (m : Int) (e : Int) : Json
  | str (s : String) : Json
  | arr (elems : List Json) : Json
  | obj (fields : List (String × Json)) : Json

/-- Whether a Python value is a `dict` (the only values with a `.get` method
among those `json.loads` can return). -/
def Json.isObj : Json → Bool
  | .obj _ => true
  | _ => false

/-- Dictionary key lookup; `none` both when the value is not a `dict` and when
the key is missing (callers guard on `isObj`, mirroring the `AttributeError`
a non-dict raises in Python before any lookup is answered). -/
def jlookup : Json → String → Option Json
  | .obj fields, k => fields.lookup k
  | _, _ => none

/-- Python truthiness of a `json.loads` result, as tested by `if products:`. -/
def pyTruthy : Json → Bool
  | .null => false
  | .bool b => b
  | .intNum n => decide (n ≠ 0)
  | .floatNum m _ => decide (m ≠ 0)
  | .str s => !s.isEmpty
  | .arr xs => !xs.isEmpty
  | .obj fields => !fields.isEmpty

/-- The Python type name, as it appears in an `AttributeError` message. -/
def pyTypeName : Json → String
  | .null => "NoneType"
  | .bool _ => "bool"
  | .intNum _ => "int"
  | .floatNum _ _ => "float"
  | .str _ => "str"
  | .arr _ => "list"
  | .obj _ => "dict"

/-- Decimal rendering of the float `m * 10 ^ e`.  Exact decimal arithmetic
stands in for binary floating point; the pipeline never computes with numbers,
it only passes them through, so only the rendering is observable. -/
def floatRepr (m : Int) (e : Int) : String :=
  if 0 ≤ e then toString (m * (10 : Int) ^ e.toNat) ++ ".0"
  else
    let k := (-e).toNat
    let sign := if m < 0 then "-" else ""
    let ds := toString m.natAbs
    let ds := if ds.length ≤ k then
        String.mk (List.replicate (k + 1 - ds.length) (Char.ofNat 48)) ++ ds
      else ds
    sign ++ ds.take (ds.length - k) ++ "." ++ ds.drop (ds.length - k)

mutual

/-- Python `str()` of a value, as applied by f-strings and by `st.text_input`
to its default value.  Containers almost reproduce Python's `repr` (string
elements are not re-quoted); no theorem depends on the container cases. -/
def pyStr : Json → String
  | .null => "None"
  | .bool true => "True"
  | .bool false => "False"
  | .intNum n => toString n
  | .floatNum m e => floatRepr m e
  | .str s => s
  | .arr xs => "[" ++ pyStrElems xs ++ "]"
  | .obj fields => "\x7b" ++ pyStrFields fields ++ "\x7d"

/-- Comma-separated rendering of list elements. -/
def pyStrElems : List Json → String
  | [] => ""
  | [x] => pyStr x
  | x :: y :: xs => pyStr x ++ ", " ++ pyStrElems (y :: xs)

/-- Comma-separated rendering of dict entries. -/
def pyStrFields : List (String × Json) → String
  | [] => ""
  | [(k, v)] => k ++ ": " ++ pyStr v
  | (k, v) :: f :: fs => k ++ ": " ++ pyStr v ++ ", " ++ pyStrFields (f :: fs)

end

/-- The exception kinds the pipeline body can raise, each carrying the text
`str(e)` would show.  They are distinct classes in Python (`JSONDecodeError`,
`AttributeError`, `ValueError`, plus the service and writer failures), all
funnelled into the same `except Exception` at the top level. -/
inductive PyError where
  | uploadError (msg : String) : PyError
  | inferenceError (msg : String) : PyError
  | jsonDecodeError (msg : String) : PyError
  | attributeError (msg : String) : PyError
  | valueError (msg : String) : PyError
  | exportError (msg : String) : PyError
  deriving DecidableEq, Repr

/-- `str(e)` for the exceptions above. -/
def errStr : PyError → String
  | .uploadError m => m
  | .inferenceError m => m
  | .jsonDecodeError m => m
  | .attributeError m => m
  | .valueError m => m
  | .exportError m => m

/-! ### `json.loads` (line 70)

A strict JSON parser over the character list of the response text, mirroring
Python's `json.loads`: JSON whitespace, `null`/`true`/`false`, numbers with no
leading zeros (integers become `int`, anything with a fraction or exponent
becomes `float`), strings with the standard escapes and `\u` hex escapes
(surrogate-pair combination is out of scope), arrays and objects with no
trailing commas, and trailing input rejected.  Error messages carry the text
of the `JSONDecodeError` without the line/column suffix. -/

/-- The character `\x7b` (opening curly brace). -/
def lbraceChar : Char := Char.ofNat 123

/-- The character `\x7d` (closing curly brace). -/
def rbraceChar : Char := Char.ofNat 125

/-- Drop leading JSON whitespace. -/
def skipWs : List Char → List Char
  | c :: cs => if c = ' ' ∨ c = '\t' ∨ c = '\n' ∨ c = '\r' then skipWs cs else c :: cs
  | [] => []

/-- Split a leading run of decimal digits from the rest. -/
def takeDigits : List Char → List Char × List Char
  | c :: cs =>
      if c.isDigit then
        let p := takeDigits cs
        (c :: p.1, p.2)
      else ([], c :: cs)
  | [] => ([], [])

/-- Numeric value of a digit string. -/
def digitsToNat (ds : List Char) : Nat :=
  ds.foldl (fun a c => a * 10 + (c.toNat - 48)) 0

/-- Hex digit value, if any. -/
def hexVal (c : Char) : Option Nat :=
  if c.isDigit then some (c.toNat - 48)
  else if 'a' ≤ c ∧ c ≤ 'f' then some (c.toNat - 87)
  else if 'A' ≤ c ∧ c ≤ 'F' then some (c.toNat - 55)
  else none

/-- Translation of a single-character JSON escape. -/
def escChar (c : Char) : Option Char :=
  if c = '"' ∨ c = '\\' ∨ c = '/' then some c
  else if c = 'b' then some (Char.ofNat 8)
  else if c = 'f' then some (Char.ofNat 12)
  else if c = 'n' then some '\n'
  else if c = 'r' then some '\r'
  else if c = 't' then some '\t'
  else none

/-- Parse the body of a JSON string (the opening quote already consumed),
returning its characters and the input after the closing quote.  Raw control
characters are rejected, as in `json.loads` strict mode. -/
def parseStringBody : List Char → Option (List Char × List Char)
  | [] => none
  | c :: cs =>
      if c = '"' then some ([], cs)
      else if c = '\\' then
        match cs with
        | [] => none
        | e :: cs2 =>
            if e = 'u' then
              match cs2 with
              | h1 :: h2 :: h3 :: h4 :: cs3 =>
                  match hexVal h1, hexVal h2, hexVal h3, hexVal h4 with
                  | some a, some b, some c3, some d =>
                      (parseStringBody cs3).map
                        (fun p => (Char.ofNat (((a * 16 + b) * 16 + c3) * 16 + d) :: p.1, p.2))
                  | _, _, _, _ => none
              | _ => none
            else
              match escChar e with
              | some ec => (parseStringBody cs2).map (fun p => (ec :: p.1, p.2))
              | none => none
      else if c.toNat < 32 then none
      else (parseStringBody cs).map (fun p => (c :: p.1, p.2))

/-- Fuelled loop for `stripZeros`; the fuel bounds the number of divisions. -/
def stripZerosAux : Nat → Nat → Int → Nat × Int
  | 0, m, e => (m, e)
  | fuel + 1, m, e =>
      if m ≠ 0 ∧ m % 10 = 0 then stripZerosAux fuel (m / 10) (e + 1) else (m, e)

/-- Strip trailing decimal zeros from a float mantissa, adjusting the
exponent, so that the stored decimal matches Python's shortest rendering. -/
def stripZeros (m : Nat) (e : Int) : Nat × Int :=
  stripZerosAux m m e

/-- Parse a JSON number: optional minus, integer part with no leading zeros,
optional fraction, optional exponent.  Without fraction and exponent the
result is a Python `int`, otherwise a `float`. -/
def parseNumber (cs : List Char) : Option (Json × List Char) :=
  let signed : Bool × List Char :=
    match cs with
    | c :: r => if c = '-' then (true, r) else (false, cs)
    | [] => (false, cs)
  let neg := signed.1
  match signed.2 with
  | [] => none
  | c :: r =>
      if ¬c.isDigit then none
      else
        let ip : List Char × List Char :=
          if c = '0' then ([c], r) else takeDigits (c :: r)
        let intDigits := ip.1
        let fp : List Char × List Char :=
          match ip.2 with
          | d :: r2 =>
              if d = '.' then takeDigits r2 else ([], ip.2)
          | [] => ([], ip.2)
        if fp.1 = [] ∧ ip.2 ≠ fp.2 then none
        else
          let ep : Option (Bool × List Char × List Char) :=
            match fp.2 with
            | d :: r3 =>
                if d = 'e' ∨ d = 'E' then
                  match r3 with
                  | s :: r4 =>
                      if s = '+' then some (false, takeDigits r4)
                      else if s = '-' then some (true, takeDigits r4)
                      else some (false, takeDigits r3)
                  | [] => some (false, ([], []))
                else none
            | [] => none
          match ep with
          | none =>
              if fp.1 = [] then
                some (.intNum (if neg then -(digitsToNat intDigits : Int) else digitsToNat intDigits), fp.2)
              else
                let m0 := digitsToNat (intDigits ++ fp.1)
                let z := stripZeros m0 (-(fp.1.length : Int))
                some (.floatNum (if neg then -(z.1 : Int) else z.1) z.2, fp.2)
          | some (eneg, eds, rest) =>
              if eds = [] then none
              else
                let expVal : Int := if eneg then -(digitsToNat eds : Int) else digitsToNat eds
                let m0 := digitsToNat (intDigits ++ fp.1)
                let z := stripZeros m0 (expVal - (fp.1.length : Int))
                some (.floatNum (if neg then -(z.1 : Int) else z.1) z.2, rest)

/-- Insert a parsed object member the way a Python dict does: an existing key
keeps its position but takes the new value, a new key is appended. -/
def dictInsert (fields : List (String × Json)) (k : String) (v : Json) : List (String × Json) :=
  if fields.any (fun p => p.1 = k) then
    fields.map (fun p => if p.1 = k then (k, v) else p)
  else fields ++ [(k, v)]

mutual

/-- Parse one JSON value, returning it and the remaining input. -/
def parseValue : Nat → List Char → Option (Json × List Char)
  | 0, _ => none
  | fuel + 1, cs =>
      match skipWs cs with
      | 'n' :: 'u' :: 'l' :: 'l' :: rest => some (.null, rest)
      | 't' :: 'r' :: 'u' :: 'e' :: rest => some (.bool true, rest)
      | 'f' :: 'a' :: 'l' :: 's' :: 'e' :: rest => some (.bool false, rest)
      | c :: rest =>
          if c = '"' then
            (parseStringBody rest).map (fun p => (.str (String.mk p.1), p.2))
          else if c = '[' then
            match skipWs rest with
            | c2 :: r2 => if c2 = ']' then some (.arr [], r2) else parseElems fuel (c2 :: r2) []
            | [] => none
          else if c = lbraceChar then
            match skipWs rest with
            | c2 :: r2 =>
                if c2 = rbraceChar then some (.obj [], r2) else parseMembers fuel (c2 :: r2) []
            | [] => none
          else if c = '-' ∨ c.isDigit then parseNumber (c :: rest)
          else none
      | [] => none

/-- Parse the elements of a non-empty JSON array, the opening bracket already
consumed. -/
def parseElems : Nat → List Char → List Json → Option (Json × List Char)
  | 0, _, _ => none
  | fuel + 1, cs, acc =>
      match parseValue fuel cs with
      | none => none
      | some (v, rest) =>
          match skipWs rest with
          | c :: r2 =>
              if c = ',' then parseElems fuel r2 (acc ++ [v])
              else if c = ']' then some (.arr (acc ++ [v]), r2)
              else none
          | [] => none

/-- Parse the members of a non-empty JSON object, the opening brace already
consumed. -/
def parseMembers : Nat → List Char → List (String × Json) → Option (Json × List Char)
  | 0, _, _ => none
  | fuel + 1, cs, acc =>
      match skipWs cs with
      | c :: rest =>
          if c = '"' then
            match parseStringBody rest with
            | none => none
            | some (kcs, r2) =>
                match skipWs r2 with
                | c2 :: r3 =>
                    if c2 = ':' then
                      match parseValue fuel r3 with
                      | none => none
                      | some (v, r4) =>
                          let acc2 := dictInsert acc (String.mk kcs) v
                          match skipWs r4 with
                          | c3 :: r5 =>
                              if c3 = ',' then parseMembers fuel r5 acc2
                              else if c3 = rbraceChar then some (.obj acc2, r5)
                              else none
                          | [] => none
                    else none
                | [] => none
          else none
      | [] => none

end

/-- `json.loads` (line 70): parse the whole text as one JSON value, rejecting
trailing input, raising `JSONDecodeError` otherwise. -/
def jsonLoads (s : String) : Except PyError Json :=
  match parseValue (2 * s.length + 4) s.data with
  | some p =>
      if (skipWs p.2).isEmpty then .ok p.1 else .error (.jsonDecodeError "Extra data")
  | none => .error (.jsonDecodeError "Expecting value")

/-! ### Tabular projection and export (lines 72-114) -/

/-- A pandas `DataFrame` as observable here: named columns and rows of cells,
a cell being `none` for `NaN`/missing (which `to_excel` writes as an empty
cell). -/
structure Table where
  cols : List String
  rows : List (List (Option Json))

/-- The serialized workbook: named sheets, each carrying its table (header row
of column names followed by the data rows, per `to_excel` with
`index=False`). -/
abbrev Artifact := List (String × Table)

/-- What the script has put on the page at a given point: the five
`st.text_input` label/value pairs, the `st.dataframe` products table, the
`st.warning` no-items flag, and the `st.download_button` file name and
workbook. -/
structure UIState where
  displayed : List (String × String)
  productsTable : Option Table
  noItems : Bool
  download : Option (String × Artifact)

/-- The cell a value contributes to a DataFrame under a key: the looked-up
value, with a missing key or a Python `None` both becoming the empty cell. -/
def cellOf (x : Json) (k : String) : Option Json :=
  match jlookup x k with
  | some Json.null => none
  | some v => some v
  | none => none

/-- The keys of a dict value, in insertion order. -/
def keysOf : Json → List String
  | .obj fields => fields.map (fun p => p.1)
  | _ => []

/-- Append a key if it has not been seen yet. -/
def insertKey (acc : List String) (k : String) : List String :=
  if k ∈ acc then acc else acc ++ [k]

/-- The DataFrame columns for a list of records: the union of the keys in
first-seen order, as pandas builds them from a list of dicts. -/
def unionKeys (xs : List Json) : List String :=
  xs.foldl (fun acc x => (keysOf x).foldl insertKey acc) []

/-- `pd.DataFrame(products)` (line 88).  A list of dicts gives one row per
dict with the union of keys as columns and missing cells empty; a list of
non-record values gives pandas' single unnamed column of raw values; a
non-sequence raises `ValueError` (as `pd.DataFrame` does for scalars and
strings, and — message aside — for scalar-valued dicts; dict-of-sequence
inputs, which pandas would tabulate, are not modelled and no theorem touches
them). -/
def pdDataFrame : Json → Except PyError Table
  | .arr xs =>
      if xs.all Json.isObj then
        let cols := unionKeys xs
        .ok ⟨cols, xs.map (fun x => cols.map (cellOf x))⟩
      else
        .ok ⟨["0"], xs.map (fun x => [some x])⟩
  | .obj _ => .error (.valueError "If using all scalar values, you must pass an index")
  | _ => .error (.valueError "DataFrame constructor not properly called!")

/-- `meta_df` (lines 97-102): the single-row summary table, built with plain
`data.get(key)` lookups — no default, so a missing field is `None` and lands
as an empty cell. -/
def metaDf (data : Json) : Table :=
  ⟨["Stockist", "Retailer", "Invoice No", "Date"],
   [[cellOf data "stockist_name", cellOf data "retailer_name",
     cellOf data "invoice_number", cellOf data "invoice_date"]]⟩

/-- `file_name` (line 110): `f"Anant_..."` over `data.get('invoice_number',
'data')`, the f-string applying `str()` to the looked-up value. -/
def fileName (data : Json) : String :=
  "Anant_" ++ pyStr ((jlookup data "invoice_number").getD (.str "data")) ++ ".xlsx"

/-- The five `st.text_input` calls (lines 76-82): label and shown value,
the lookups defaulting to the sentinels `"N/A"` and `"0"`. -/
def displayedOf (data : Json) : List (String × String) :=
  [("Stockist", pyStr ((jlookup data "stockist_name").getD (.str "N/A"))),
   ("Retailer", pyStr ((jlookup data "retailer_name").getD (.str "N/A"))),
   ("Invoice #", pyStr ((jlookup data "invoice_number").getD (.str "N/A"))),
   ("Date", pyStr ((jlookup data "invoice_date").getD (.str "N/A"))),
   ("Total Discount", pyStr ((jlookup data "total_discount_amount").getD (.str "0")))]

/-- `products = data.get("products", [])` (line 85). -/
def productsOf (data : Json) : Json :=
  (jlookup data "products").getD (.arr [])

/-- Lines 72-114, from `data = json.loads(...)` onward: the display lookups
with their sentinel defaults, the `products` branch, the DataFrame
projection, the two-sheet export and download button, or the warning.
`writerFailure` is the oracle for an `ExcelWriter`/`to_excel` failure
(serialization is a library call that can raise on exotic input).  Returns
the page state built up to the point of return or raise, and the raised
exception if any. -/
def afterParse (writerFailure : Option String) (data : Json) : UIState × Option PyError :=
  if data.isObj then
    if pyTruthy (productsOf data) then
      match pdDataFrame (productsOf data) with
      | .error e => (⟨displayedOf data, none, false, none⟩, some e)
      | .ok df =>
          match writerFailure with
          | some m => (⟨displayedOf data, some df, false, none⟩, some (.exportError m))
          | none =>
              (⟨displayedOf data, some df, false,
                some (fileName data, [("Products", df), ("Invoice Info", metaDf data)])⟩,
               none)
    else
      (⟨displayedOf data, none, true, none⟩, none)
  else
    (⟨[], none, false, none⟩,
     some (.attributeError
       ("\x27" ++ pyTypeName data ++ "\x27 object has no attribute \x27get\x27")))

/-! ### The whole request (lines 33-121) -/

/-- The oracles for one run: the outcome of `client.files.upload` (a file
handle or a service rejection), of `generate_content` (the response text or a
service/inference failure), and of the Excel serialization. -/
structure Behavior where
  uploadResult : Except String String
  generateResult : Except String String
  writerFailure : Option String

/-- The `try` block (lines 41-114): upload, inference call, `json.loads`,
then everything after the parse.  Returns the page state reached and the
exception, if one was raised. -/
def tryBlock (b : Behavior) : UIState × Option PyError :=
  match b.uploadResult with
  | .error m => (⟨[], none, false, none⟩, some (.uploadError m))
  | .ok _ =>
      match b.generateResult with
      | .error m => (⟨[], none, false, none⟩, some (.inferenceError m))
      | .ok text =>
          match jsonLoads text with
          | .error e => (⟨[], none, false, none⟩, some e)
          | .ok data => afterParse b.writerFailure data

/-- Everything observable after one run: the page state, the `st.error`
message from the catch-all `except` (line 117) if anything was raised, and
the set of temporary files existing afterwards. -/
structure Output where
  displayed : List (String × String)
  productsTable : Option Table
  noItems : Bool
  download : Option (String × Artifact)
  errorMsg : Option String
  finalFs : List String

/-- Lines 33-121 for one uploaded file: `tempfile.NamedTemporaryFile` creates
`tmpPath` on disk (`fs0` is the rest of the filesystem), the `try` block
runs, any exception becomes the `st.error` message, and the `finally` block
unlinks the temporary file. -/
def pipeline (b : Behavior) (tmpPath : String) (fs0 : List String) : Output :=
  let fs1 := tmpPath :: fs0
  let r := tryBlock b
  ⟨r.1.displayed, r.1.productsTable, r.1.noItems, r.1.download,
   r.2.map (fun e => "An error occurred: " ++ errStr e),
   fs1.erase tmpPath⟩

/-! ### Reading a sheet back

Modelled from the spec: the repository ships no spreadsheet reader, but §4.5
fixes the sheet layout — "a header row of column names followed by data rows
in the table's row order" — so reading a sheet back yields, for each data
row, the record pairing each column name with that row's non-empty cells. -/

/-- Modelled from the spec: deserialize one sheet into one record per data
row, pairing column names with the non-empty cells. -/
def readSheet (t : Table) : List (List (String × Json)) :=
  t.rows.map (fun r => (t.cols.zip r).filterMap (fun p => p.2.map (fun v => (p.1, v))))

/-- The record `readSheet` recovers for one original product under a given
column set. -/
def recordOf (cols : List String) (x : Json) : List (String × Json) :=
  (cols.map (fun c => (c, cellOf x c))).filterMap (fun p => p.2.map (fun v => (p.1, v)))

/-! ### Sample parsed responses, used by concrete witnesses and
counterexamples -/

/-- The product line of the spec's first scenario. -/
def sampleWidget : Json :=
  .obj [("name", .str "Widget"), ("quantity", .intNum 5),
        ("rate", .intNum 10), ("net_amount", .intNum 50)]

/-- The spec's first scenario: a stockist name and one product, every other
scalar field missing. -/
def sampleAcme : Json :=
  .obj [("stockist_name", .str "Acme"), ("products", .arr [sampleWidget])]

/-- One product and no scalar fields at all. -/
def sampleNoScalars : Json :=
  .obj [("products", .arr [.obj [("name", .str "x")]])]

/-- The spec's second scenario: `products` present but empty. -/
def sampleEmptyProducts : Json :=
  .obj [("products", .arr [])]

/-- A truthy non-list `products` value. -/
def sampleStrProducts : Json :=
  .obj [("products", .str "abc")]

/-! ### Helper lemmas -/

/-- `afterParse` either offers no download, or returns the full success
state: no exception, both tables shown in a two-sheet artifact named after
the invoice number. -/
theorem afterParse_cases (wf : Option String) (data : Json) :
    (afterParse wf data).1.download = none ∨
    ∃ df, afterParse wf data =
      (⟨displayedOf data, some df, false,
        some (fileName data, [("Products", df), ("Invoice Info", metaDf data)])⟩, none) := by
  unfold afterParse
  split
  · split
    · split
      · exact Or.inl rfl
      · split
        · exact Or.inl rfl
        · exact Or.inr ⟨_, rfl⟩
    · exact Or.inl rfl
  · exact Or.inl rfl

/-- Whatever branch `afterParse` takes, a download it offers carries exactly
the two sheets, named "Products" and "Invoice Info". -/
theorem afterParse_download_sheets (wf : Option String) (data : Json) (fname : String)
    (art : Artifact) (h : (afterParse wf data).1.download = some (fname, art)) :
    art.map (fun p => p.1) = ["Products", "Invoice Info"] := by
  rcases afterParse_cases wf data with hc | ⟨df, hc⟩
  · rw [hc] at h
    exact absurd h (by simp)
  · rw [hc] at h
    simp only [Option.some.injEq, Prod.mk.injEq] at h
    rw [← h.2]
    rfl

/-- If `afterParse` raised, it offered no download. -/
theorem afterParse_err_download (wf : Option String) (data : Json) (e : PyError)
    (h : (afterParse wf data).2 = some e) : (afterParse wf data).1.download = none := by
  rcases afterParse_cases wf data with hc | ⟨df, hc⟩
  · exact hc
  · rw [hc] at h
    exact absurd h (by simp)

/-- `tryBlock` either fails before the parse step with an empty page, or
hands over to `afterParse`. -/
theorem tryBlock_cases (b : Behavior) :
    (∃ e, tryBlock b = (⟨[], none, false, none⟩, some e)) ∨
    ∃ data, tryBlock b = afterParse b.writerFailure data := by
  unfold tryBlock
  split
  · exact Or.inl ⟨_, rfl⟩
  · split
    · exact Or.inl ⟨_, rfl⟩
    · split
      · exact Or.inl ⟨_, rfl⟩
      · exact Or.inr ⟨_, rfl⟩

/-- `tryBlock` version of `afterParse_download_sheets`. -/
theorem tryBlock_download_sheets (b : Behavior) (fname : String) (art : Artifact)
    (h : (tryBlock b).1.download = some (fname, art)) :
    art.map (fun p => p.1) = ["Products", "Invoice Info"] := by
  rcases tryBlock_cases b with ⟨e, hc⟩ | ⟨data, hc⟩
  · rw [hc] at h
    exact absurd h (by simp)
  · rw [hc] at h
    exact afterParse_download_sheets _ _ _ _ h

/-- `tryBlock` version of `afterParse_err_download`. -/
theorem tryBlock_err_download (b : Behavior) (e : PyError)
    (h : (tryBlock b).2 = some e) : (tryBlock b).1.download = none := by
  rcases tryBlock_cases b with ⟨e2, hc⟩ | ⟨data, hc⟩
  · rw [hc]
  · rw [hc] at h ⊢
    exact afterParse_err_download _ _ _ h

/-- When the parsed value is an object, the five labeled fields are shown,
whatever happens afterwards. -/
theorem afterParse_displayed (wf : Option String) (data : Json) (h : data.isObj = true) :
    (afterParse wf data).1.displayed = displayedOf data := by
  unfold afterParse
  rw [h]
  simp only [if_true]
  split
  · split
    · rfl
    · split <;> rfl
  · rfl

/-- On an object response whose `products` is a non-empty list of records,
with the writer succeeding, `afterParse` returns the full success state. -/
theorem afterParse_success (wf : Option String) (data : Json) (ps : List Json)
    (h : data.isObj = true) (hp : jlookup data "products" = some (.arr ps))
    (hne : ps ≠ []) (hobj : ps.all Json.isObj = true) (hwf : wf = none) :
    afterParse wf data =
      (⟨displayedOf data,
        some ⟨unionKeys ps, ps.map (fun x => (unionKeys ps).map (cellOf x))⟩, false,
        some (fileName data,
          [("Products", ⟨unionKeys ps, ps.map (fun x => (unionKeys ps).map (cellOf x))⟩),
           ("Invoice Info", metaDf data)])⟩, none) := by
  subst hwf
  have hprod : productsOf data = Json.arr ps := by
    rw [productsOf, hp]
    rfl
  have htruthy : pyTruthy (productsOf data) = true := by
    rw [hprod]
    cases ps with
    | nil => exact absurd rfl hne
    | cons p ps2 => rfl
  have hdf : pdDataFrame (productsOf data) =
      .ok ⟨unionKeys ps, ps.map (fun x => (unionKeys ps).map (cellOf x))⟩ := by
    rw [hprod]
    simp [pdDataFrame, hobj]
  unfold afterParse
  rw [h, htruthy, hdf]
  rfl

/-- Same situation but any writer outcome: the products DataFrame is shown
either way. -/
theorem afterParse_table (wf : Option String) (data : Json) (ps : List Json)
    (h : data.isObj = true) (hp : jlookup data "products" = some (.arr ps))
    (hne : ps ≠ []) (hobj : ps.all Json.isObj = true) :
    (afterParse wf data).1.productsTable =
      some ⟨unionKeys ps, ps.map (fun x => (unionKeys ps).map (cellOf x))⟩ := by
  have hprod : productsOf data = Json.arr ps := by
    rw [productsOf, hp]
    rfl
  have htruthy : pyTruthy (productsOf data) = true := by
    rw [hprod]
    cases ps with
    | nil => exact absurd rfl hne
    | cons p ps2 => rfl
  have hdf : pdDataFrame (productsOf data) =
      .ok ⟨unionKeys ps, ps.map (fun x => (unionKeys ps).map (cellOf x))⟩ := by
    rw [hprod]
    simp [pdDataFrame, hobj]
  unfold afterParse
  rw [h, htruthy, hdf]
  cases wf <;> rfl

/-- On an object response with falsy `products` (absent, null, empty list,
empty string, zero, false, empty dict), `afterParse` only warns. -/
theorem afterParse_falsy (wf : Option String) (data : Json) (h : data.isObj = true)
    (hfalsy : pyTruthy (productsOf data) = false) :
    afterParse wf data = (⟨displayedOf data, none, true, none⟩, none) := by
  unfold afterParse
  rw [h, hfalsy]
  rfl

/-- On an object response whose `products` is a non-empty string,
`pd.DataFrame` raises its constructor `ValueError`. -/
theorem afterParse_str_products (wf : Option String) (data : Json) (s : String)
    (h : data.isObj = true) (hp : jlookup data "products" = some (.str s)) (hs : s ≠ "") :
    afterParse wf data =
      (⟨displayedOf data, none, false, none⟩,
       some (.valueError "DataFrame constructor not properly called!")) := by
  have hprod : productsOf data = Json.str s := by
    rw [productsOf, hp]
    rfl
  have hie : s.isEmpty = false := by
    cases hie2 : s.isEmpty with
    | false => rfl
    | true => exact absurd ((String.isEmpty_iff s).mp hie2) hs
  have htruthy : pyTruthy (productsOf data) = true := by
    rw [hprod]
    simp [pyTruthy, hie]
  unfold afterParse
  rw [h, htruthy, hprod]
  rfl

/-- Zipping a list with its own image lists the graph of the function. -/
theorem zip_self_map {α β : Type} (f : α → β) :
    ∀ l : List α, l.zip (l.map f) = l.map (fun a => (a, f a)) := by
  intro l
  induction l with
  | nil => rfl
  | cons a l ih => simp [ih]

/-- Unfolding `recordOf` over one more column. -/
theorem recordOf_cons (c : String) (cs : List String) (x : Json) :
    recordOf (c :: cs) x =
      match cellOf x c with
      | some w => (c, w) :: recordOf cs x
      | none => recordOf cs x := by
  unfold recordOf
  simp only [List.map_cons, List.filterMap_cons]
  cases cellOf x c <;> rfl

/-- A key found by `List.lookup` is among the keys. -/
theorem lookup_mem_keys {β : Type} (k : String) (v : β) :
    ∀ fields : List (String × β), List.lookup k fields = some v →
      k ∈ fields.map (fun p => p.1) := by
  intro fields
  induction fields with
  | nil => intro h; simp [List.lookup] at h
  | cons p fs ih =>
      intro h
      obtain ⟨a, b⟩ := p
      simp only [List.lookup] at h
      cases hak : (k == a) with
      | true =>
          have : k = a := eq_of_beq hak
          simp [this]
      | false =>
          rw [hak] at h
          exact List.mem_cons_of_mem _ (ih h)

/-- A key that is present and maps to a non-empty cell is found by
`List.lookup` on the recovered record. -/
theorem lookup_recordOf (x v : Json) (k : String) :
    ∀ cols : List String, k ∈ cols → cellOf x k = some v →
      (recordOf cols x).lookup k = some v := by
  intro cols
  induction cols with
  | nil => intro hk _; simp at hk
  | cons c cs ih =>
      intro hk hc
      rw [recordOf_cons]
      cases hcell : cellOf x c with
      | none =>
          rcases List.mem_cons.mp hk with he | hm
          · rw [he] at hc
            rw [hcell] at hc
            exact absurd hc (by simp)
          · exact ih hm hc
      | some w =>
          by_cases he : k = c
          · subst he
            rw [hcell] at hc
            simp only [List.lookup, beq_self_eq_true]
            exact hc.symm ▸ rfl
          · simp only [List.lookup, beq_eq_false_iff_ne.mpr he]
            rcases List.mem_cons.mp hk with he2 | hm
            · exact absurd he2 he
            · exact ih hm hc

/-- Membership in an accumulator survives `insertKey`. -/
theorem mem_insertKey (a k : String) (acc : List String) (h : a ∈ acc) :
    a ∈ insertKey acc k := by
  unfold insertKey
  split
  · exact h
  · exact List.mem_append_left _ h

/-- The inserted key is a member afterwards. -/
theorem self_mem_insertKey (k : String) (acc : List String) : k ∈ insertKey acc k := by
  unfold insertKey
  split
  · assumption
  · exact List.mem_append_right _ (List.mem_singleton.mpr rfl)

/-- Membership in the accumulator survives folding `insertKey` over keys. -/
theorem mem_foldl_insertKey_of_mem_acc (a : String) :
    ∀ (ks : List String) (acc : List String), a ∈ acc → a ∈ ks.foldl insertKey acc := by
  intro ks
  induction ks with
  | nil => exact fun acc h => h
  | cons k ks ih => exact fun acc h => ih _ (mem_insertKey a k acc h)

/-- A folded-in key is a member afterwards. -/
theorem mem_foldl_insertKey_of_mem (a : String) :
    ∀ (ks : List String) (acc : List String), a ∈ ks → a ∈ ks.foldl insertKey acc := by
  intro ks
  induction ks with
  | nil => intro acc h; simp at h
  | cons k ks ih =>
      intro acc h
      rcases List.mem_cons.mp h with he | hm
      · subst he
        exact mem_foldl_insertKey_of_mem_acc a ks _ (self_mem_insertKey a acc)
      · exact ih _ hm

/-- Membership in the accumulator survives the `unionKeys` fold. -/
theorem mem_foldl_keys_of_mem_acc (a : String) :
    ∀ (xs : List Json) (acc : List String), a ∈ acc →
      a ∈ xs.foldl (fun acc2 x => (keysOf x).foldl insertKey acc2) acc := by
  intro xs
  induction xs with
  | nil => exact fun acc h => h
  | cons x xs ih => exact fun acc h => ih _ (mem_foldl_insertKey_of_mem_acc a _ _ h)

/-- A key of any record in the list appears in the union of keys. -/
theorem mem_unionKeys (k : String) :
    ∀ (xs : List Json) (acc : List String), (∃ x ∈ xs, k ∈ keysOf x) →
      k ∈ xs.foldl (fun acc2 x => (keysOf x).foldl insertKey acc2) acc := by
  intro xs
  induction xs with
  | nil =>
      intro acc h
      rcases h with ⟨x, hx, _⟩
      simp at hx
  | cons y ys ih =>
      intro acc h
      rcases h with ⟨x, hx, hk⟩
      rcases List.mem_cons.mp hx with he | hm
      · subst he
        exact mem_foldl_keys_of_mem_acc k ys _ (mem_foldl_insertKey_of_mem k _ acc hk)
      · exact ih _ ⟨x, hm, hk⟩

/-- A present, non-null field survives into its cell. -/
theorem cellOf_of_jlookup (x : Json) (k : String) (v : Json)
    (h : jlookup x k = some v) (hnn : v ≠ Json.null) : cellOf x k = some v := by
  unfold cellOf
  rw [h]
  cases v with
  | null => exact absurd rfl hnn
  | bool b => rfl
  | intNum n => rfl
  | floatNum m e => rfl
  | str s => rfl
  | arr xs => rfl
  | obj fields => rfl

/-- A present field's key is among the record's keys. -/
theorem jlookup_mem_keys (x : Json) (k : String) (v : Json)
    (h : jlookup x k = some v) : k ∈ keysOf x := by
  cases x with
  | obj fields => exact lookup_mem_keys k v fields h
  | null => exact absurd h (by simp [jlookup])
  | bool b => exact absurd h (by simp [jlookup])
  | intNum n => exact absurd h (by simp [jlookup])
  | floatNum m e => exact absurd h (by simp [jlookup])
  | str s => exact absurd h (by simp [jlookup])
  | arr xs => exact absurd h (by simp [jlookup])

/-- Every `jsonLoads` failure is a `JSONDecodeError`. -/
theorem jsonLoads_error_shape (s : String) (e : PyError)
    (h : jsonLoads s = Except.error e) : ∃ m, e = PyError.jsonDecodeError m := by
  unfold jsonLoads at h
  split at h
  · split at h
    · exact absurd h (by simp)
    · simp only [Except.error.injEq] at h
      exact ⟨"Extra data", h.symm⟩
  · simp only [Except.error.injEq] at h
    exact ⟨"Expecting value", h.symm⟩

/-! ### Claims -/

/-- Claim C3: for every execution in which an uploaded file is processed,
the temporary on-disk copy created during submission does not exist after
the pipeline completes, on every exit path — the behavior oracle ranges over
upload failure, inference failure, parse failure (any response text), export
failure and success. -/
theorem temp_file_removed (b : Behavior) (tmpPath : String) (fs0 : List String)
    (h : tmpPath ∉ fs0) : tmpPath ∉ (pipeline b tmpPath fs0).finalFs := by
  show tmpPath ∉ (tmpPath :: fs0).erase tmpPath
  rw [List.erase_cons_head]
  exact h

/-- Witness for C3 at a concrete run (a parse failure). -/
theorem temp_file_removed_witness :
    "/tmp/upload.pdf" ∉ ([] : List String) ∧
    "/tmp/upload.pdf" ∉
      (pipeline ⟨.ok "files/x", .ok "not valid json", none⟩ "/tmp/upload.pdf" []).finalFs :=
  ⟨by simp, temp_file_removed ⟨.ok "files/x", .ok "not valid json", none⟩ "/tmp/upload.pdf" []
    (by simp)⟩

/-- Claim C4: for every response text that is not valid JSON, the failure is
the distinct parse kind (`JSONDecodeError`, not the upload / inference /
export kinds), it is surfaced, and no tabular projection and no export
happen. -/
theorem parse_failure_no_export (b : Behavior) (tmpPath : String) (fs0 : List String)
    (hdl s : String) (e : PyError) (hu : b.uploadResult = .ok hdl)
    (hg : b.generateResult = .ok s) (hp : jsonLoads s = .error e) :
    (∃ m, e = PyError.jsonDecodeError m) ∧
    (pipeline b tmpPath fs0).errorMsg = some ("An error occurred: " ++ errStr e) ∧
    (pipeline b tmpPath fs0).productsTable = none ∧
    (pipeline b tmpPath fs0).download = none ∧
    (pipeline b tmpPath fs0).noItems = false := by
  refine ⟨jsonLoads_error_shape s e hp, ?_, ?_, ?_, ?_⟩ <;>
    simp [pipeline, tryBlock, hu, hg, hp]

/-- Witness for C4 at the spec's own scenario, response `not valid json`. -/
theorem parse_failure_no_export_witness :
    (⟨.ok "files/x", .ok "not valid json", none⟩ : Behavior).uploadResult = .ok "files/x" ∧
    (⟨.ok "files/x", .ok "not valid json", none⟩ : Behavior).generateResult =
      .ok "not valid json" ∧
    jsonLoads "not valid json" = .error (.jsonDecodeError "Expecting value") ∧
    ((∃ m, PyError.jsonDecodeError "Expecting value" = PyError.jsonDecodeError m) ∧
      (pipeline ⟨.ok "files/x", .ok "not valid json", none⟩ "/tmp/t" []).errorMsg =
        some ("An error occurred: " ++ errStr (.jsonDecodeError "Expecting value")) ∧
      (pipeline ⟨.ok "files/x", .ok "not valid json", none⟩ "/tmp/t" []).productsTable = none ∧
      (pipeline ⟨.ok "files/x", .ok "not valid json", none⟩ "/tmp/t" []).download = none ∧
      (pipeline ⟨.ok "files/x", .ok "not valid json", none⟩ "/tmp/t" []).noItems = false) :=
  ⟨rfl, rfl, rfl,
   parse_failure_no_export ⟨.ok "files/x", .ok "not valid json", none⟩ "/tmp/t" []
     "files/x" "not valid json" (.jsonDecodeError "Expecting value") rfl rfl rfl⟩

/-- Claim C8: on every run, any offered download is the complete two-sheet
bundle, and a run that raised after parsing (or anywhere) offers no download
at all. -/
theorem no_partial_export (b : Behavior) (tmpPath : String) (fs0 : List String) :
    (∀ fname art, (pipeline b tmpPath fs0).download = some (fname, art) →
        art.map (fun p => p.1) = ["Products", "Invoice Info"]) ∧
    ((pipeline b tmpPath fs0).errorMsg.isSome = true →
        (pipeline b tmpPath fs0).download = none) := by
  constructor
  · intro fname art h
    exact tryBlock_download_sheets b fname art h
  · intro h
    show (tryBlock b).1.download = none
    rcases he : (tryBlock b).2 with _ | e
    · exfalso
      have : (pipeline b tmpPath fs0).errorMsg = none := by
        show ((tryBlock b).2.map _) = none
        rw [he]
        rfl
      rw [this] at h
      simp at h
    · exact tryBlock_err_download b e he

/-- Witness for C8: a run with a writer failure surfaces an error and offers
no download. -/
theorem no_partial_export_witness :
    (pipeline ⟨.ok "files/x", .ok "true", some "boom"⟩ "/tmp/t" []).errorMsg.isSome = true →
    (pipeline ⟨.ok "files/x", .ok "true", some "boom"⟩ "/tmp/t" []).download = none :=
  (no_partial_export ⟨.ok "files/x", .ok "true", some "boom"⟩ "/tmp/t" []).2

/-- Claim C10: a response that is valid JSON but not an object (a list, a
string, a number, a boolean or null) raises an `AttributeError` at the first
field lookup, surfaced as the generic failure message — no sentinel-filled
result is displayed and no no-items state is signaled. -/
theorem non_object_generic_error (b : Behavior) (tmpPath : String) (fs0 : List String)
    (hdl s : String) (data : Json) (hu : b.uploadResult = .ok hdl)
    (hg : b.generateResult = .ok s) (hp : jsonLoads s = .ok data)
    (hno : data.isObj = false) :
    (pipeline b tmpPath fs0).errorMsg =
      some ("An error occurred: " ++
        ("\x27" ++ pyTypeName data ++ "\x27 object has no attribute \x27get\x27")) ∧
    (pipeline b tmpPath fs0).displayed = [] ∧
    (pipeline b tmpPath fs0).noItems = false ∧
    (pipeline b tmpPath fs0).productsTable = none ∧
    (pipeline b tmpPath fs0).download = none := by
  refine ⟨?_, ?_, ?_, ?_, ?_⟩ <;>
    simp [pipeline, tryBlock, hu, hg, hp, afterParse, hno, errStr]

/-- Claim C1 (amended): for an object response, each display lookup of a
missing scalar field shows the documented sentinel ("N/A", and "0" for the
discount); the InvoiceInfo export row, however, is built from default-less
`data.get(key)` lookups, so a missing field contributes the empty (`None`)
cell, not the sentinel, and the discount amount has no column there at
all. -/
theorem missing_fields_sentinels (wf : Option String) (data : Json) (h : data.isObj = true) :
    (jlookup data "stockist_name" = none →
      (displayedOf data).lookup "Stockist" = some "N/A" ∧
      cellOf data "stockist_name" = none) ∧
    (jlookup data "retailer_name" = none →
      (displayedOf data).lookup "Retailer" = some "N/A" ∧
      cellOf data "retailer_name" = none) ∧
    (jlookup data "invoice_number" = none →
      (displayedOf data).lookup "Invoice #" = some "N/A" ∧
      cellOf data "invoice_number" = none) ∧
    (jlookup data "invoice_date" = none →
      (displayedOf data).lookup "Date" = some "N/A" ∧
      cellOf data "invoice_date" = none) ∧
    (jlookup data "total_discount_amount" = none →
      (displayedOf data).lookup "Total Discount" = some "0") ∧
    (afterParse wf data).1.displayed = displayedOf data ∧
    (metaDf data).rows =
      [[cellOf data "stockist_name", cellOf data "retailer_name",
        cellOf data "invoice_number", cellOf data "invoice_date"]] := by
  refine ⟨?_, ?_, ?_, ?_, ?_, afterParse_displayed wf data h, rfl⟩ <;>
    (intro hm; simp [displayedOf, List.lookup, hm, cellOf, pyStr])

/-- Counterexample to C1 as stated: for the parsed response with one product
and no scalar fields, the InvoiceInfo row in the exported artifact is four
empty cells, not four `"N/A"` sentinels. -/
theorem missing_fields_sentinels_counterexample :
    ((afterParse none sampleNoScalars).1.download.map
        (fun p => (p.2.lookup "Invoice Info").map Table.rows)) =
      some (some [[none, none, none, none]]) ∧
    some (some [[(none : Option Json), none, none, none]]) ≠
      some (some [[some (Json.str "N/A"), some (Json.str "N/A"),
                   some (Json.str "N/A"), some (Json.str "N/A")]]) := by
  constructor
  · rfl
  · simp

/-- Witness for C1 (amended) at the spec's first scenario, where every
scalar field except the stockist name is missing. -/
theorem missing_fields_sentinels_witness :
    Json.isObj sampleAcme = true ∧
    ((displayedOf sampleAcme).lookup "Retailer" = some "N/A" ∧
      cellOf sampleAcme "retailer_name" = none) ∧
    ((displayedOf sampleAcme).lookup "Total Discount" = some "0") ∧
    (metaDf sampleAcme).rows =
      [[cellOf sampleAcme "stockist_name", cellOf sampleAcme "retailer_name",
        cellOf sampleAcme "invoice_number", cellOf sampleAcme "invoice_date"]] :=
  ⟨rfl,
   (missing_fields_sentinels none sampleAcme rfl).2.1 rfl,
   (missing_fields_sentinels none sampleAcme rfl).2.2.2.2.1 rfl,
   (missing_fields_sentinels none sampleAcme rfl).2.2.2.2.2.2⟩

/-- Witness for C10 at the response `[1, 2]`, a JSON array. -/
theorem non_object_generic_error_witness :
    jsonLoads "[1, 2]" = .ok (.arr [.intNum 1, .intNum 2]) ∧
    Json.isObj (.arr [.intNum 1, .intNum 2]) = false ∧
    ((pipeline ⟨.ok "files/x", .ok "[1, 2]", none⟩ "/tmp/t" []).errorMsg =
        some ("An error occurred: " ++
          ("\x27" ++ pyTypeName (.arr [.intNum 1, .intNum 2]) ++
            "\x27 object has no attribute \x27get\x27")) ∧
      (pipeline ⟨.ok "files/x", .ok "[1, 2]", none⟩ "/tmp/t" []).displayed = [] ∧
      (pipeline ⟨.ok "files/x", .ok "[1, 2]", none⟩ "/tmp/t" []).noItems = false ∧
      (pipeline ⟨.ok "files/x", .ok "[1, 2]", none⟩ "/tmp/t" []).productsTable = none ∧
      (pipeline ⟨.ok "files/x", .ok "[1, 2]", none⟩ "/tmp/t" []).download = none) :=
  ⟨rfl, rfl,
   non_object_generic_error ⟨.ok "files/x", .ok "[1, 2]", none⟩ "/tmp/t" []
     "files/x" "[1, 2]" (.arr [.intNum 1, .intNum 2]) rfl rfl rfl rfl⟩

/-- Claim C2 (amended): the single-row InvoiceInfo table is produced exactly
when `products` is truthy: with a non-empty product list it is part of the
exported bundle (and has one row); with empty (or otherwise falsy)
`products` the whole export block is skipped, so no InvoiceInfo table exists
anywhere — only the no-items warning. -/
theorem invoice_info_only_with_products (wf : Option String) (data : Json) (ps : List Json)
    (h : data.isObj = true) :
    (jlookup data "products" = some (.arr ps) → ps ≠ [] → ps.all Json.isObj = true →
      wf = none →
      (afterParse wf data).1.download =
        some (fileName data,
          [("Products", ⟨unionKeys ps, ps.map (fun x => (unionKeys ps).map (cellOf x))⟩),
           ("Invoice Info", metaDf data)]) ∧
      (metaDf data).rows.length = 1) ∧
    (pyTruthy (productsOf data) = false →
      (afterParse wf data).1.download = none ∧
      (afterParse wf data).1.noItems = true ∧
      (afterParse wf data).2 = none) := by
  constructor
  · intro hp hne hobj hwf
    rw [afterParse_success wf data ps h hp hne hobj hwf]
    exact ⟨rfl, rfl⟩
  · intro hfalsy
    rw [afterParse_falsy wf data h hfalsy]
    exact ⟨rfl, rfl, rfl⟩

/-- Counterexample to C2 as stated: for the parsed response
`\x7b"products": []\x7d` no InvoiceInfo row exists — there is no download
(hence no InvoiceInfo table), no products table, only the warning. -/
theorem invoice_info_only_with_products_counterexample :
    (afterParse none sampleEmptyProducts).1.download = none ∧
    (afterParse none sampleEmptyProducts).1.productsTable = none ∧
    (afterParse none sampleEmptyProducts).1.noItems = true :=
  ⟨rfl, rfl, rfl⟩

/-- Witness for C2 (amended) at the spec's first scenario. -/
theorem invoice_info_only_with_products_witness :
    Json.isObj sampleAcme = true ∧
    ((afterParse none sampleAcme).1.download =
      some (fileName sampleAcme,
        [("Products",
           ⟨unionKeys [sampleWidget],
            [sampleWidget].map (fun x => (unionKeys [sampleWidget]).map (cellOf x))⟩),
         ("Invoice Info", metaDf sampleAcme)]) ∧
      (metaDf sampleAcme).rows.length = 1) :=
  ⟨rfl,
   (invoice_info_only_with_products none sampleAcme [sampleWidget] rfl).1 rfl
     (by simp) rfl rfl⟩

/-- Claim C5: for an object response whose `products` is a non-empty list of
N records, the projected table has exactly N rows, the i-th row built from
the i-th product, and the very same table is what the export carries in the
"Products" sheet. -/
theorem products_rows_order (wf : Option String) (data : Json) (ps : List Json)
    (h : data.isObj = true) (hp : jlookup data "products" = some (.arr ps))
    (hne : ps ≠ []) (hobj : ps.all Json.isObj = true) :
    pdDataFrame (Json.arr ps) =
      .ok ⟨unionKeys ps, ps.map (fun x => (unionKeys ps).map (cellOf x))⟩ ∧
    (afterParse wf data).1.productsTable =
      some ⟨unionKeys ps, ps.map (fun x => (unionKeys ps).map (cellOf x))⟩ ∧
    (ps.map (fun x => (unionKeys ps).map (cellOf x))).length = ps.length ∧
    (wf = none →
      (afterParse wf data).1.download =
        some (fileName data,
          [("Products", ⟨unionKeys ps, ps.map (fun x => (unionKeys ps).map (cellOf x))⟩),
           ("Invoice Info", metaDf data)])) := by
  refine ⟨by simp [pdDataFrame, hobj], afterParse_table wf data ps h hp hne hobj,
    List.length_map _ _, ?_⟩
  intro hwf
  rw [afterParse_success wf data ps h hp hne hobj hwf]

/-- Witness for C5 at the spec's first scenario (N = 1). -/
theorem products_rows_order_witness :
    Json.isObj sampleAcme = true ∧
    jlookup sampleAcme "products" = some (.arr [sampleWidget]) ∧
    (afterParse none sampleAcme).1.productsTable =
      some ⟨unionKeys [sampleWidget],
            [sampleWidget].map (fun x => (unionKeys [sampleWidget]).map (cellOf x))⟩ ∧
    ([sampleWidget].map (fun x => (unionKeys [sampleWidget]).map (cellOf x))).length =
      [sampleWidget].length :=
  ⟨rfl, rfl,
   (products_rows_order none sampleAcme [sampleWidget] rfl rfl (by simp) rfl).2.1,
   (products_rows_order none sampleAcme [sampleWidget] rfl rfl (by simp) rfl).2.2.1⟩

/-- Claim C6 (amended): for an object response, a falsy `products` value
(absent, null, empty list — or empty string, zero, false, empty dict) skips
the Products table and signals the no-items warning with no error; but a
truthy non-list value such as a non-empty string instead enters the
projection branch, where `pd.DataFrame` raises a `ValueError` that surfaces
as a generic failure — no no-items state. -/
theorem no_items_state (wf : Option String) (data : Json) (h : data.isObj = true) :
    (pyTruthy (productsOf data) = false →
      (afterParse wf data).1.noItems = true ∧
      (afterParse wf data).1.productsTable = none ∧
      (afterParse wf data).1.download = none ∧
      (afterParse wf data).2 = none) ∧
    (∀ s, jlookup data "products" = some (.str s) → s ≠ "" →
      (afterParse wf data).2 =
        some (.valueError "DataFrame constructor not properly called!") ∧
      (afterParse wf data).1.noItems = false ∧
      (afterParse wf data).1.productsTable = none ∧
      (afterParse wf data).1.download = none) := by
  constructor
  · intro hf
    rw [afterParse_falsy wf data h hf]
    exact ⟨rfl, rfl, rfl, rfl⟩
  · intro s hp hs
    rw [afterParse_str_products wf data s h hp hs]
    exact ⟨rfl, rfl, rfl, rfl⟩

/-- Counterexample to C6 as stated: for the parsed response with
`products` the non-list truthy value `"abc"`, no no-items state is signaled;
the projection is attempted and raises. -/
theorem no_items_state_counterexample :
    (afterParse none sampleStrProducts).1.noItems = false ∧
    (afterParse none sampleStrProducts).2 =
      some (.valueError "DataFrame constructor not properly called!") ∧
    (afterParse none sampleStrProducts).1.productsTable = none :=
  ⟨rfl, rfl, rfl⟩

/-- Witness for C6 (amended) at the spec's second scenario,
`\x7b"products": []\x7d`. -/
theorem no_items_state_witness :
    Json.isObj sampleEmptyProducts = true ∧
    pyTruthy (productsOf sampleEmptyProducts) = false ∧
    ((afterParse none sampleEmptyProducts).1.noItems = true ∧
      (afterParse none sampleEmptyProducts).1.productsTable = none ∧
      (afterParse none sampleEmptyProducts).1.download = none ∧
      (afterParse none sampleEmptyProducts).2 = none) :=
  ⟨rfl, rfl, (no_items_state none sampleEmptyProducts rfl).1 rfl⟩

/-- Claim C7: the downloaded artifact is named by `fileName`, which is
`"Anant_" ++ str(invoice_number) ++ ".xlsx"` when the key is present and
falls back to the placeholder `"Anant_data.xlsx"` exactly when the
`invoice_number` key is absent (the case in which the displayed field shows
the sentinel "N/A"). -/
theorem export_file_name (data : Json) (ps : List Json)
    (h : data.isObj = true) (hp : jlookup data "products" = some (.arr ps))
    (hne : ps ≠ []) (hobj : ps.all Json.isObj = true) :
    ((afterParse none data).1.download.map (fun p => p.1)) = some (fileName data) ∧
    (jlookup data "invoice_number" = none → fileName data = "Anant_data.xlsx") ∧
    (∀ v, jlookup data "invoice_number" = some v →
      fileName data = "Anant_" ++ pyStr v ++ ".xlsx") := by
  refine ⟨?_, ?_, ?_⟩
  · rw [afterParse_success none data ps h hp hne hobj rfl]
    rfl
  · intro hm
    unfold fileName
    rw [hm]
    rfl
  · intro v hv
    unfold fileName
    rw [hv]
    rfl

/-- Witness for C7 at the spec's first scenario, whose invoice number is
absent. -/
theorem export_file_name_witness :
    jlookup sampleAcme "invoice_number" = none ∧
    fileName sampleAcme = "Anant_data.xlsx" ∧
    ((afterParse none sampleAcme).1.download.map (fun p => p.1)) =
      some (fileName sampleAcme) :=
  ⟨rfl,
   (export_file_name sampleAcme [sampleWidget] rfl rfl (by simp) rfl).2.1 rfl,
   (export_file_name sampleAcme [sampleWidget] rfl rfl (by simp) rfl).1⟩

/-- Claim C9: projecting a synthetic list of K products gives the table the
pipeline exports; reading the Products sheet back (deserializer modelled
from the spec) yields exactly K records, the i-th from the i-th product, and
every present non-null field value is recovered exactly — values pass
through the cells untouched, so no numeric coercion or loss occurs.  (A
`null` field value is the one exception: pandas writes it as an empty cell,
indistinguishable from a missing key, which is why it is excluded.) -/
theorem roundtrip (ps : List Json) (hobj : ps.all Json.isObj = true) :
    pdDataFrame (Json.arr ps) =
      .ok ⟨unionKeys ps, ps.map (fun x => (unionKeys ps).map (cellOf x))⟩ ∧
    (readSheet ⟨unionKeys ps, ps.map (fun x => (unionKeys ps).map (cellOf x))⟩).length =
      ps.length ∧
    readSheet ⟨unionKeys ps, ps.map (fun x => (unionKeys ps).map (cellOf x))⟩ =
      ps.map (recordOf (unionKeys ps)) ∧
    (∀ x ∈ ps, ∀ k v, jlookup x k = some v → v ≠ Json.null →
      (recordOf (unionKeys ps) x).lookup k = some v) := by
  have hsheet : readSheet ⟨unionKeys ps, ps.map (fun x => (unionKeys ps).map (cellOf x))⟩ =
      ps.map (recordOf (unionKeys ps)) := by
    unfold readSheet
    simp only [List.map_map]
    have hfun : ((fun r => ((unionKeys ps).zip r).filterMap
        (fun p => p.2.map (fun v => (p.1, v)))) ∘
        (fun x => (unionKeys ps).map (cellOf x))) = recordOf (unionKeys ps) := by
      funext x
      show ((unionKeys ps).zip ((unionKeys ps).map (cellOf x))).filterMap
        (fun p => p.2.map (fun v => (p.1, v))) = recordOf (unionKeys ps) x
      rw [zip_self_map]
      rfl
    rw [hfun]
  refine ⟨by simp [pdDataFrame, hobj], ?_, hsheet, ?_⟩
  · rw [hsheet]
    exact List.length_map _ _
  · intro x hx k v hkv hnn
    have hcell := cellOf_of_jlookup x k v hkv hnn
    have hmem : k ∈ unionKeys ps := by
      unfold unionKeys
      exact mem_unionKeys k ps [] ⟨x, hx, jlookup_mem_keys x k v hkv⟩
    exact lookup_recordOf x v k (unionKeys ps) hmem hcell

/-- Witness for C9 at a one-product list, the spec's Widget line. -/
theorem roundtrip_witness :
    [sampleWidget].all Json.isObj = true ∧
    (pdDataFrame (Json.arr [sampleWidget]) =
        .ok ⟨unionKeys [sampleWidget],
             [sampleWidget].map (fun x => (unionKeys [sampleWidget]).map (cellOf x))⟩ ∧
      (readSheet ⟨unionKeys [sampleWidget],
          [sampleWidget].map (fun x => (unionKeys [sampleWidget]).map (cellOf x))⟩).length =
        [sampleWidget].length ∧
      readSheet ⟨unionKeys [sampleWidget],
          [sampleWidget].map (fun x => (unionKeys [sampleWidget]).map (cellOf x))⟩ =
        [sampleWidget].map (recordOf (unionKeys [sampleWidget])) ∧
      (∀ x ∈ [sampleWidget], ∀ k v, jlookup x k = some v → v ≠ Json.null →
        (recordOf (unionKeys [sampleWidget]) x).lookup k = some v)) :=
  ⟨rfl, roundtrip [sampleWidget] rfl⟩

end Anant
